import Mathlib

/-!
Shallow embedding of `src/jobs/tasks_runner.py`.

The module has four parts, embedded here as executable Lean definitions:

* `_run` (lines 79-119): run a subcommand, optionally detached, and either
  return its trimmed stdout or terminate the process on failure.
* `depend_on` / `wrapper_depend_on` (lines 51-76): a guard that checks
  required binaries and environment variables before running a function.
* `configure_cluster` (lines 126-156): the bootstrap sequence.
* the `__main__` dispatcher (lines 159-166), embedded as `task_dispatch`.

Side effects (logging, callbacks, process spawns) are embedded as an explicit
trace of `Event` values; process termination (`sys.exit`) and uncaught Python
exceptions are embedded as outcome constructors.  Results of external
subprocesses and of `shutil.which` / `os.environ` lookups are inputs of the
embedding, since they are inputs of the program.
-/

/-- The single-quote character, written by code point. -/
def sqChar : Char := Char.ofNat 39

/-- The single-quote character as a one-character string. -/
def sqStr : String := String.singleton sqChar

/-- Whitespace characters stripped by Python `str.strip()` (ASCII range). -/
def isPySpace (c : Char) : Bool :=
  c = ' ' || c = Char.ofNat 9 || c = Char.ofNat 10 || c = Char.ofNat 13 ||
  c = Char.ofNat 11 || c = Char.ofNat 12

/-- Embedding of Python `str.strip()`: drop leading and trailing whitespace. -/
def pyStrip (s : String) : String :=
  String.mk (((s.toList.dropWhile isPySpace).reverse.dropWhile isPySpace).reverse)

/-- The characters `pipes.quote` leaves unquoted (`_safechars` of module `pipes`). -/
def safechars : List Char :=
  "abcdefghijklmnopqrstuvwxyzABCDEFGHIJKLMNOPQRSTUVWXYZ0123456789@%_-+=:,./".toList

/-- Replace every single-quote character by the shell escape used by
`pipes.quote` (quote, double quote, quote, double quote, quote). -/
def escapeQuoteChars : List Char → List Char
  | [] => []
  | c :: cs =>
    if c = sqChar then (sqStr ++ "\"" ++ sqStr ++ "\"" ++ sqStr).toList ++ escapeQuoteChars cs
    else c :: escapeQuoteChars cs

/-- Embedding of `pipes.quote`: return the string unchanged when it is
non-empty and made only of safe characters, quote it otherwise. -/
def pipesQuote (file : String) : String :=
  if file.toList.all (fun c => c ∈ safechars) then
    if file = "" then sqStr ++ sqStr else file
  else
    sqStr ++ String.mk (escapeQuoteChars file.toList) ++ sqStr

/-- The logged command line: `" ".join(map(pipes.quote, cmd))` (line 93). -/
def quoteJoin (cmd : List String) : String :=
  " ".intercalate (cmd.map pipesQuote)

/-- Embedding of Python `str.endswith`: suffix test on the character list. -/
def pyEndsWith (s suffix : String) : Bool :=
  suffix.toList.isSuffixOf s.toList

/-- Embedding of Python `str.startswith`: prefix test on the character list. -/
def pyStartsWith (s pre : String) : Bool :=
  pre.toList.isPrefixOf s.toList

/-- Embedding of `os.path.join` for the use at line 140 (first component a
relative directory ending in `/`, second a file name from `os.listdir`). -/
def osPathJoin (a b : String) : String :=
  if pyStartsWith b "/" then b
  else if pyEndsWith a "/" || a = "" then a ++ b
  else a ++ "/" ++ b

/-- Python truthiness of an optional string (`None` and `""` are falsy);
used for `proc.stdout`, `proc.stderr` and `os.environ.get(env)`. -/
def pyTruthy : Option String → Bool
  | none => false
  | some s => s != ""

/-- Python lexicographic string order on code points, `s1 <= s2`, as used by
`list.sort()` on the wheel names. -/
def listCharLe : List Char → List Char → Bool
  | [], _ => true
  | _ :: _, [] => false
  | a :: as, b :: bs =>
    if a.toNat = b.toNat then listCharLe as bs
    else decide (a.toNat < b.toNat)

/-- Lexicographic order on strings (Python `<=` on `str`). -/
def strLe (a b : String) : Prop := listCharLe a.toList b.toList = true

instance : DecidableRel strLe := fun a b => by
  unfold strLe; infer_instance

theorem listCharLe_refl : ∀ as : List Char, listCharLe as as = true := by
  intro as
  induction as with
  | nil => rfl
  | cons a as ih => simp [listCharLe, ih]

theorem listCharLe_total :
    ∀ as bs : List Char, listCharLe as bs = true ∨ listCharLe bs as = true := by
  intro as
  induction as with
  | nil => intro bs; left; rfl
  | cons a as ih =>
    intro bs
    cases bs with
    | nil => right; rfl
    | cons b bs =>
      rcases Nat.lt_trichotomy a.toNat b.toNat with hlt | heq | hgt
      · left; simp [listCharLe, Nat.ne_of_lt hlt, hlt]
      · rcases ih bs with h | h
        · left; simp [listCharLe, heq, h]
        · right; simp [listCharLe, heq.symm, h]
      · right; simp [listCharLe, Nat.ne_of_lt hgt, hgt]

theorem listCharLe_trans :
    ∀ as bs cs : List Char, listCharLe as bs = true → listCharLe bs cs = true →
      listCharLe as cs = true := by
  intro as
  induction as with
  | nil => intro bs cs _ _; rfl
  | cons a as ih =>
    intro bs cs hab hbc
    cases bs with
    | nil => simp [listCharLe] at hab
    | cons b bs =>
      cases cs with
      | nil => simp [listCharLe] at hbc
      | cons c cs =>
        by_cases h1 : a.toNat = b.toNat
        · by_cases h2 : b.toNat = c.toNat
          · simp only [listCharLe, h1, if_pos rfl] at hab
            simp only [listCharLe, h2, if_pos rfl] at hbc
            simp [listCharLe, h1.trans h2, ih bs cs hab hbc]
          · simp only [listCharLe, if_neg h2, decide_eq_true_eq] at hbc
            have : a.toNat < c.toNat := h1 ▸ hbc
            simp [listCharLe, Nat.ne_of_lt this, this]
        · simp only [listCharLe, if_neg h1, decide_eq_true_eq] at hab
          by_cases h2 : b.toNat = c.toNat
          · have : a.toNat < c.toNat := h2 ▸ hab
            simp [listCharLe, Nat.ne_of_lt this, this]
          · simp only [listCharLe, if_neg h2, decide_eq_true_eq] at hbc
            have : a.toNat < c.toNat := Nat.lt_trans hab hbc
            simp [listCharLe, Nat.ne_of_lt this, this]

instance : IsTotal String strLe := ⟨fun a b => listCharLe_total a.toList b.toList⟩

instance : IsTrans String strLe :=
  ⟨fun a b c hab hbc => listCharLe_trans a.toList b.toList c.toList hab hbc⟩

instance : IsRefl String strLe := ⟨fun a => listCharLe_refl a.toList⟩

/-- Embedding of `available_wheels.sort()`: ascending lexicographic sort. -/
def pySortStrings (l : List String) : List String :=
  l.insertionSort strLe

/-- Destinations for a spawned process standard streams.  The detached branch
of `_run` passes `subprocess.DEVNULL` for stdin, stdout and stderr. -/
inductive StdStream where
  | devnull : StdStream
  | piped : StdStream
  | inherited : StdStream
deriving DecidableEq

/-- Observable side effects of the program, in order of occurrence. -/
inductive Event where
  | loggedInfo (s : String) : Event
  | loggedError (s : String) : Event
  | loggedDebug (s : String) : Event
  | loggedDebugList (l : List String) : Event
  | loggedMissingBinaries (l : List String) : Event
  | loggedMissingEnvs (l : List String) : Event
  | calledCallback : Event
  | spawned (stdin stdout stderr : StdStream) : Event
  | refreshed : Event
deriving DecidableEq

/-- Result of a completed synchronous subprocess (`subprocess.run`): exit code
and captured streams (`none` when the stream was not captured). -/
structure ProcResult where
  returncode : Int
  stdout : Option String
  stderr : Option String
deriving DecidableEq

/-- The keyword options of `_run` with their Python default values
(lines 79-84).  `error_callback` records whether a callback was supplied;
invoking it is the event `Event.calledCallback`. -/
structure RunOptions where
  detach : Bool := false
  log_command : Bool := true
  error_callback : Bool := false
  exit_on_error : Bool := true
deriving DecidableEq

/-- How a call of `_run` ends: a detached handle, termination of the current
process via `sys.exit`, or a normal return of a string. -/
inductive RunOutcome where
  | detached : RunOutcome
  | exitedProcess (code : Int) : RunOutcome
  | returned (s : String) : RunOutcome
deriving DecidableEq

/-- The message logged at line 109 when a command errors. -/
def runErrMsg (cmd : List String) (code : Int) : String :=
  "`" ++ quoteJoin cmd ++ "` errored (" ++ toString code ++ ")"

/-- The string returned at lines 117-119: trimmed stdout when it is truthy,
empty string otherwise. -/
def stdoutText (proc : ProcResult) : String :=
  if pyTruthy proc.stdout then pyStrip (proc.stdout.getD "") else ""

/-- Embedding of `_run` (lines 79-119).  `proc` is the `ProcResult` that
`subprocess.run cmd` produces in the synchronous branch; the detached branch
never inspects it.  The first component is the trace of side effects, the
second the outcome. -/
def _run (cmd : List String) (opts : RunOptions) (proc : ProcResult) :
    List Event × RunOutcome :=
  let logEv : List Event :=
    if opts.log_command then [Event.loggedInfo (quoteJoin cmd)] else []
  if opts.detach then
    (logEv ++ [Event.spawned StdStream.devnull StdStream.devnull StdStream.devnull],
     RunOutcome.detached)
  else
    if proc.returncode ≠ 0 then
      let errEv : List Event :=
        [Event.loggedError (runErrMsg cmd proc.returncode)]
        ++ (if pyTruthy proc.stderr then [Event.loggedError (pyStrip (proc.stderr.getD ""))]
            else [])
        ++ (if opts.error_callback then [Event.calledCallback] else [])
      if opts.exit_on_error then
        (logEv ++ errEv, RunOutcome.exitedProcess proc.returncode)
      else
        (logEv ++ errEv, RunOutcome.returned (stdoutText proc))
    else
      (logEv, RunOutcome.returned (stdoutText proc))

/-- Python exceptions relevant to the refresh block: `NameError` and
`ImportError` are matched by name by the `except` clauses; every other
`Exception` subclass is `otherExc`, with a tag so that re-raising the same
exception is expressible. -/
inductive Exc where
  | nameError : Exc
  | importError : Exc
  | otherExc (tag : Nat) : Exc
deriving DecidableEq

/-- Outcomes of the three reload attempts of lines 143-153: what exception, if
any, each of the three code paths raises when executed.  `reload_site` is the
bare `reload(site)` call of line 144 (which raises `NameError` on Python 3),
`importlib_branch` is `from importlib import reload; reload(site)` of lines
147-148, `imp_branch` is `from imp import reload; reload(site)` of lines
151-152. -/
structure RefreshWorld where
  reload_site : Option Exc
  importlib_branch : Option Exc
  imp_branch : Option Exc
deriving DecidableEq

/-- Embedding of the try/except refresh block (lines 143-156).  `except`
clauses are tried in order: `NameError` first, then `Exception` (which logs
and re-raises the same exception object).  Exceptions raised inside the
`NameError` handler are caught only by its inner `except ImportError`;
anything else propagates.  A successful reload is the event
`Event.refreshed`. -/
def refreshBlock (w : RefreshWorld) : List Event × Except Exc Unit :=
  match w.reload_site with
  | none => ([Event.refreshed], Except.ok ())
  | some Exc.nameError =>
    match w.importlib_branch with
    | none => ([Event.refreshed], Except.ok ())
    | some Exc.importError =>
      match w.imp_branch with
      | none => ([Event.refreshed], Except.ok ())
      | some e => ([], Except.error e)
    | some e => ([], Except.error e)
  | some e => ([Event.loggedError "Error during Dataproc initialization !"], Except.error e)

/-- How a call of the guard produced by `depend_on` ends: either `sys.exit(1)`
without running the wrapped function, or the wrapped function ran and its
value is returned. -/
inductive GateOutcome (β : Type) where
  | exitedProcess (code : Int) : GateOutcome β
  | ran (result : β) : GateOutcome β
deriving DecidableEq

/-- Embedding of `wrapper_depend_on`, the guard that `depend_on binaries envs`
wraps around `func` (lines 51-76).  `which` models `shutil.which` (resolved
path or `None`); `environ` models `os.environ.get`.  Both are inputs: the
gate only reads them. -/
def wrapper_depend_on {α β : Type} (binaries envs : List String)
    (which environ : String → Option String) (funcName : String)
    (func : α → β) (args : α) : List Event × GateOutcome β :=
  let missing_binaries := binaries.filter (fun binary => (which binary).isNone)
  let missing_envs := envs.filter (fun env => !pyTruthy (environ env))
  if !missing_binaries.isEmpty || !missing_envs.isEmpty then
    ([Event.loggedError ("Exiting due to missing dependencies for \"" ++ funcName ++ "\""),
      Event.loggedMissingBinaries missing_binaries,
      Event.loggedMissingEnvs missing_envs],
     GateOutcome.exitedProcess 1)
  else
    ([], GateOutcome.ran (func args))

/-- Embedding of the artifact selection (lines 132-134): filter the directory
listing to names ending in `.whl`, sort lexically, take the last element
(`available_wheels[-1]`); `none` is the `IndexError` case of an empty list. -/
def selectWheel (listing : List String) : Option String :=
  (pySortStrings (listing.filter (fun file => pyEndsWith file ".whl"))).getLast?

/-- How `configure_cluster` ends: normal return, `sys.exit` from a failed
`_run`, an uncaught exception re-raised from the refresh block, or the
uncaught `IndexError` of `available_wheels[-1]` on an empty list. -/
inductive BootOutcome where
  | ok : BootOutcome
  | exitedProcess (code : Int) : BootOutcome
  | raised (e : Exc) : BootOutcome
  | indexError : BootOutcome
deriving DecidableEq

/-- Embedding of `configure_cluster` (lines 126-156), after the
`depend_on` gate has passed.  `listing` is `os.listdir("./")`; `runs` maps
each command line to the `ProcResult` its synchronous execution produces;
`w` gives the refresh block outcomes.  Every `_run` call uses default
options, so a non-zero exit code terminates the process. -/
def configure_cluster (listing : List String) (runs : List String → ProcResult)
    (w : RefreshWorld) : List Event × BootOutcome :=
  let ev0 : List Event :=
    [Event.loggedDebug "Dataproc configuration started ...",
     Event.loggedDebugList listing]
  match selectWheel listing with
  | none => (ev0, BootOutcome.indexError)
  | some wheel_file =>
    let c1 : List String := ["python", "-V"]
    let r1 := _run c1 {} (runs c1)
    match r1.2 with
    | RunOutcome.exitedProcess code => (ev0 ++ r1.1, BootOutcome.exitedProcess code)
    | _ =>
      let c2 : List String := ["pip", "-V"]
      let r2 := _run c2 {} (runs c2)
      match r2.2 with
      | RunOutcome.exitedProcess code => (ev0 ++ r1.1 ++ r2.1, BootOutcome.exitedProcess code)
      | _ =>
        let c3 : List String := ["pip", "install", "-r", "requirements/requirements.txt"]
        let r3 := _run c3 {} (runs c3)
        match r3.2 with
        | RunOutcome.exitedProcess code =>
          (ev0 ++ r1.1 ++ r2.1 ++ r3.1, BootOutcome.exitedProcess code)
        | _ =>
          let ev1 : List Event :=
            [Event.loggedDebug ("installing with wheel file : " ++ wheel_file)]
          let c4 : List String := ["pip", "install", osPathJoin "./" wheel_file, "--upgrade"]
          let r4 := _run c4 {} (runs c4)
          match r4.2 with
          | RunOutcome.exitedProcess code =>
            (ev0 ++ r1.1 ++ r2.1 ++ r3.1 ++ ev1 ++ r4.1, BootOutcome.exitedProcess code)
          | _ =>
            let ev2 : List Event := [Event.loggedInfo "Dataproc initialized successfully !"]
            let rb := refreshBlock w
            match rb.2 with
            | Except.ok _ =>
              (ev0 ++ r1.1 ++ r2.1 ++ r3.1 ++ ev1 ++ r4.1 ++ ev2 ++ rb.1, BootOutcome.ok)
            | Except.error e =>
              (ev0 ++ r1.1 ++ r2.1 ++ r3.1 ++ ev1 ++ r4.1 ++ ev2 ++ rb.1, BootOutcome.raised e)

instance {ε α : Type} [DecidableEq ε] [DecidableEq α] : DecidableEq (Except ε α) := fun a b =>
  match a, b with
  | Except.ok x, Except.ok y =>
    if h : x = y then Decidable.isTrue (by rw [h])
    else Decidable.isFalse (fun hc => h (by injection hc))
  | Except.error x, Except.error y =>
    if h : x = y then Decidable.isTrue (by rw [h])
    else Decidable.isFalse (fun hc => h (by injection hc))
  | Except.ok _, Except.error _ => Decidable.isFalse (fun hc => Except.noConfusion hc)
  | Except.error _, Except.ok _ => Decidable.isFalse (fun hc => Except.noConfusion hc)

/-- Python runtime errors of the dispatcher: reading `sys.argv[1]` when it
does not exist. -/
inductive PyErr where
  | indexError : PyErr
deriving DecidableEq

/-- The action the `__main__` block routes to. -/
inductive DispatchAction where
  | configured : DispatchAction
  | forwarded (cmd : List String) (opts : RunOptions) : DispatchAction
deriving DecidableEq

/-- Embedding of the `__main__` block (lines 159-166).  `argv` is the full
`sys.argv`, program name included.  Reading `sys.argv[1]` raises `IndexError`
when absent; otherwise the task routes to `configure_cluster` or forwards
`["ingestor"] + sys.argv[1:]` to `_run` with default options. -/
def task_dispatch (argv : List String) : List Event × Except PyErr DispatchAction :=
  match argv.get? 1 with
  | none => ([], Except.error PyErr.indexError)
  | some task =>
    let ev : List Event := [Event.loggedDebug ("task to run " ++ task)]
    if task = "configure" then (ev, Except.ok DispatchAction.configured)
    else (ev, Except.ok (DispatchAction.forwarded ("ingestor" :: argv.drop 1) {}))

/-! Helper lemmas. -/

theorem stdoutText_eq (proc : ProcResult) :
    stdoutText proc = match proc.stdout with
      | some s => pyStrip s
      | none => "" := by
  cases hs : proc.stdout with
  | none => simp [stdoutText, pyTruthy, hs]
  | some s =>
    by_cases h : s = ""
    · subst h; simp [stdoutText, pyTruthy, hs]; rfl
    · simp [stdoutText, pyTruthy, hs, h]

theorem sorted_getLast?_max :
    ∀ {l : List String}, l.Sorted strLe → ∀ {w : String}, l.getLast? = some w →
      ∀ x ∈ l, strLe x w := by
  intro l
  induction l with
  | nil => intro _ w hw; cases hw
  | cons a t ih =>
    intro hs w hw x hx
    rcases List.sorted_cons.mp hs with ⟨ha, ht⟩
    cases t with
    | nil =>
      simp only [List.getLast?_singleton, Option.some.injEq] at hw
      subst hw
      rcases List.mem_singleton.mp hx with rfl
      exact listCharLe_refl x.toList
    | cons b t2 =>
      rw [List.getLast?_cons_cons] at hw
      rcases List.mem_cons.mp hx with rfl | hx2
      · have hwmem : w ∈ b :: t2 := by
          rcases List.mem_getLast?_eq_getLast (l := b :: t2) hw with ⟨hne, hwl⟩
          exact hwl ▸ List.getLast_mem hne
        exact ha w hwmem
      · exact ih ht hw x hx2

/-! Claim theorems. -/

/-- C1: a synchronous `_run` with default options (`exit_on_error = true`)
whose subcommand exits non-zero logs the shell-quoted command line with the
exit code, then the trimmed stderr when present, then invokes the error
callback when supplied, and terminates the current process with exactly the
subcommand exit code. -/
theorem run_default_failure_exits (cmd : List String) (cb : Bool) (proc : ProcResult)
    (h : proc.returncode ≠ 0) :
    _run cmd { error_callback := cb } proc =
      ([Event.loggedInfo (quoteJoin cmd),
        Event.loggedError (runErrMsg cmd proc.returncode)]
       ++ (if pyTruthy proc.stderr then [Event.loggedError (pyStrip (proc.stderr.getD ""))]
           else [])
       ++ (if cb then [Event.calledCallback] else []),
       RunOutcome.exitedProcess proc.returncode) := by
  simp [_run, h]

theorem run_default_failure_exits_witness :
    ((⟨1, none, some " boom "⟩ : ProcResult).returncode ≠ 0) ∧
    _run ["false"] { error_callback := true } ⟨1, none, some " boom "⟩ =
      ([Event.loggedInfo (quoteJoin ["false"]),
        Event.loggedError (runErrMsg ["false"] 1)]
       ++ (if pyTruthy (some " boom ") then [Event.loggedError (pyStrip " boom ")] else [])
       ++ (if true then [Event.calledCallback] else []),
       RunOutcome.exitedProcess 1) :=
  ⟨by decide, run_default_failure_exits ["false"] true ⟨1, none, some " boom "⟩ (by decide)⟩

/-- C3: a synchronous `_run` that returns to the caller (exit code zero, or
non-zero with `exit_on_error = false`) returns the captured stdout trimmed of
leading and trailing whitespace, or the empty string when no stdout was
captured, and its outcome is a normal return, not a process exit. -/
theorem run_sync_returns (cmd : List String) (opts : RunOptions) (proc : ProcResult)
    (hd : opts.detach = false)
    (h : proc.returncode = 0 ∨ opts.exit_on_error = false) :
    (_run cmd opts proc).2 =
      RunOutcome.returned (match proc.stdout with
        | some s => pyStrip s
        | none => "") := by
  rw [← stdoutText_eq]
  by_cases hr : proc.returncode = 0
  · simp [_run, hd, hr]
  · rcases h with h | h
    · exact absurd h hr
    · simp [_run, hd, hr, h]

theorem run_sync_returns_witness :
    (({ exit_on_error := false } : RunOptions).detach = false) ∧
    (_run ["false"] { exit_on_error := false } ⟨2, some "  out  ", none⟩).2 =
      RunOutcome.returned (pyStrip "  out  ") :=
  ⟨by decide,
   run_sync_returns ["false"] { exit_on_error := false } ⟨2, some "  out  ", none⟩
     (by decide) (Or.inr (by decide))⟩

/-- C7: `_run` with `detach = true` spawns the process with stdin, stdout and
stderr redirected to the null device, returns a detached handle, produces the
same result whatever the launched process would do (no blocking, no exit code
observed), never calls the error callback and never logs an error. -/
theorem run_detach_spec (cmd : List String) (opts : RunOptions) (proc proc2 : ProcResult)
    (h : opts.detach = true) :
    _run cmd opts proc =
      ((if opts.log_command then [Event.loggedInfo (quoteJoin cmd)] else [])
        ++ [Event.spawned StdStream.devnull StdStream.devnull StdStream.devnull],
       RunOutcome.detached) ∧
    _run cmd opts proc = _run cmd opts proc2 ∧
    Event.calledCallback ∉ (_run cmd opts proc).1 ∧
    (∀ s, Event.loggedError s ∉ (_run cmd opts proc).1) := by
  refine ⟨by simp [_run, h], by simp [_run, h], ?_, ?_⟩
  · simp only [_run, h, if_true]
    cases hl : opts.log_command <;> simp
  · intro s
    simp only [_run, h, if_true]
    cases hl : opts.log_command <;> simp

theorem run_detach_spec_witness :
    (({ detach := true } : RunOptions).detach = true) ∧
    _run ["ingestor", "load"] { detach := true } ⟨0, none, none⟩ =
      ((if true then [Event.loggedInfo (quoteJoin ["ingestor", "load"])] else [])
        ++ [Event.spawned StdStream.devnull StdStream.devnull StdStream.devnull],
       RunOutcome.detached) :=
  ⟨by decide,
   (run_detach_spec ["ingestor", "load"] { detach := true } ⟨0, none, none⟩
     ⟨7, some "x", some "y"⟩ (by decide)).1⟩

/-- C2: the gate produced by `depend_on`: when at least one declared binary is
unresolvable or one declared environment variable is unset or empty, the
complete lists of missing binaries and missing environment variables (every
missing item, not just the first) are logged, the outcome is `sys.exit(1)`,
and the result does not depend on the guarded function (it is never invoked);
when nothing is missing, the guarded function runs once with its original
arguments and its return value is propagated unchanged. -/
theorem depend_on_spec {α β : Type} (binaries envs : List String)
    (which environ : String → Option String) (funcName : String)
    (func gunc : α → β) (args : α) :
    (((binaries.filter fun binary => (which binary).isNone) ≠ [] ∨
      (envs.filter fun env => !pyTruthy (environ env)) ≠ []) →
      (wrapper_depend_on binaries envs which environ funcName func args).2 =
          GateOutcome.exitedProcess 1 ∧
      wrapper_depend_on binaries envs which environ funcName func args =
        wrapper_depend_on binaries envs which environ funcName gunc args ∧
      Event.loggedMissingBinaries (binaries.filter fun binary => (which binary).isNone) ∈
        (wrapper_depend_on binaries envs which environ funcName func args).1 ∧
      Event.loggedMissingEnvs (envs.filter fun env => !pyTruthy (environ env)) ∈
        (wrapper_depend_on binaries envs which environ funcName func args).1 ∧
      (∀ b ∈ binaries, (which b).isNone →
        b ∈ binaries.filter fun binary => (which binary).isNone) ∧
      (∀ e ∈ envs, !pyTruthy (environ e) →
        e ∈ envs.filter fun env => !pyTruthy (environ env))) ∧
    (((binaries.filter fun binary => (which binary).isNone) = [] ∧
      (envs.filter fun env => !pyTruthy (environ env)) = []) →
      wrapper_depend_on binaries envs which environ funcName func args =
        ([], GateOutcome.ran (func args))) := by
  constructor
  · intro h
    have hcond :
        (!(binaries.filter fun binary => (which binary).isNone).isEmpty ||
         !(envs.filter fun env => !pyTruthy (environ env)).isEmpty) = true := by
      rcases h with h | h <;> simp [List.isEmpty_iff, h]
    refine ⟨?_, ?_, ?_, ?_, ?_, ?_⟩
    · simp [wrapper_depend_on, hcond]
    · simp [wrapper_depend_on, hcond]
    · simp [wrapper_depend_on, hcond]
    · simp [wrapper_depend_on, hcond]
    · intro b hb hmiss; exact List.mem_filter.mpr ⟨hb, hmiss⟩
    · intro e he hmiss; exact List.mem_filter.mpr ⟨he, hmiss⟩
  · intro h
    simp [wrapper_depend_on, h.1, h.2]

theorem depend_on_spec_witness :
    (wrapper_depend_on ["nosuchbin"] ["NOVAR"] (fun _ => none) (fun _ => none)
        "configure_cluster" (fun _ : Unit => (42 : Nat)) ()).2 =
      GateOutcome.exitedProcess 1 ∧
    wrapper_depend_on ["pip"] [] (fun _ => some "/usr/bin/pip") (fun _ => none)
        "configure_cluster" (fun _ : Unit => (42 : Nat)) () =
      ([], GateOutcome.ran 42) :=
  ⟨((depend_on_spec ["nosuchbin"] ["NOVAR"] (fun _ => none) (fun _ => none)
      "configure_cluster" (fun _ : Unit => (42 : Nat)) (fun _ => 7) ()).1
      (by decide)).1,
   (depend_on_spec ["pip"] [] (fun _ => some "/usr/bin/pip") (fun _ => none)
      "configure_cluster" (fun _ : Unit => (42 : Nat)) (fun _ => 7) ()).2
      ⟨by decide, by decide⟩⟩

/-- C6: artifact selection filters the listing to names ending in `.whl`,
sorts lexically and picks the last: any selected wheel belongs to the filtered
listing and is lexicographically greatest among it; the selection is a pure
function of the listing (deterministic and idempotent); on
`["pkg-1.0.whl", "pkg-2.0.whl"]` it picks `"pkg-2.0.whl"` and on
`["pkg-9.0.whl", "pkg-10.0.whl"]` it picks the numerically older
`"pkg-9.0.whl"`. -/
theorem select_wheel_spec :
    (∀ (l : List String) (w : String), selectWheel l = some w →
      w ∈ l.filter (fun file => pyEndsWith file ".whl") ∧
      ∀ x ∈ l.filter (fun file => pyEndsWith file ".whl"), strLe x w) ∧
    selectWheel ["pkg-1.0.whl", "pkg-2.0.whl"] = some "pkg-2.0.whl" ∧
    selectWheel ["pkg-9.0.whl", "pkg-10.0.whl"] = some "pkg-9.0.whl" ∧
    (∀ l : List String, selectWheel l = selectWheel l) := by
  refine ⟨?_, by decide, by decide, fun _ => rfl⟩
  intro l w h
  unfold selectWheel pySortStrings at h
  have hs := List.sorted_insertionSort strLe (l.filter fun file => pyEndsWith file ".whl")
  constructor
  · have hmem : w ∈ (l.filter fun file => pyEndsWith file ".whl").insertionSort strLe := by
      rcases List.mem_getLast?_eq_getLast h with ⟨hne, hwl⟩
      exact hwl ▸ List.getLast_mem hne
    exact (List.mem_insertionSort strLe).mp hmem
  · intro x hx
    exact sorted_getLast?_max hs h x ((List.mem_insertionSort strLe).mpr hx)

theorem select_wheel_spec_witness :
    strLe "pkg-1.0.whl" "pkg-2.0.whl" :=
  (select_wheel_spec.1 ["pkg-1.0.whl", "pkg-2.0.whl"] "pkg-2.0.whl" (by decide)).2
    "pkg-1.0.whl" (by decide)

/-- If `configure_cluster` returns normally, the refresh block succeeded. -/
theorem configure_ok_refresh (listing : List String) (runs : List String → ProcResult)
    (w : RefreshWorld) :
    (configure_cluster listing runs w).2 = BootOutcome.ok →
      (refreshBlock w).2 = Except.ok () := by
  intro h
  simp only [configure_cluster] at h
  split at h
  · simp at h
  · split at h
    · simp at h
    · split at h
      · simp at h
      · split at h
        · simp at h
        · split at h
          · simp at h
          · split at h
            · rename_i val heq
              cases val
              exact heq
            · simp at h

/-- If the refresh block succeeds, its trace is the single refresh event. -/
theorem refreshBlock_ok_trace (w : RefreshWorld)
    (h : (refreshBlock w).2 = Except.ok ()) :
    (refreshBlock w).1 = [Event.refreshed] := by
  rcases w with ⟨f, ib, pb⟩
  cases f with
  | none => rfl
  | some e =>
    cases e with
    | nameError =>
      cases ib with
      | none => rfl
      | some e2 =>
        cases e2 with
        | importError =>
          cases pb with
          | none => rfl
          | some e3 => simp [refreshBlock] at h
        | nameError => simp [refreshBlock] at h
        | otherExc t => simp [refreshBlock] at h
    | importError => simp [refreshBlock] at h
    | otherExc t => simp [refreshBlock] at h

/-- C5: when the refresh block at the end of `configure_cluster` ends in an
uncaught error, `configure_cluster` never returns normally; when execution
reaches the refresh block (a wheel was selected and every command exited
zero), the very same error is re-raised to the caller. -/
theorem refresh_error_reraised (listing : List String) (runs : List String → ProcResult)
    (w : RefreshWorld) (e : Exc) (h : (refreshBlock w).2 = Except.error e) :
    (configure_cluster listing runs w).2 ≠ BootOutcome.ok ∧
    (∀ wf, selectWheel listing = some wf → (∀ c, (runs c).returncode = 0) →
      (configure_cluster listing runs w).2 = BootOutcome.raised e) := by
  constructor
  · intro hok
    have := configure_ok_refresh listing runs w hok
    rw [h] at this
    exact Except.noConfusion this
  · intro wf hsel h0
    have hrun : ∀ c, _run c {} (runs c) =
        ([Event.loggedInfo (quoteJoin c)], RunOutcome.returned (stdoutText (runs c))) := by
      intro c; simp [_run, h0 c]
    simp [configure_cluster, hsel, hrun, h]

theorem refresh_error_reraised_witness :
    (configure_cluster ["pkg-2.0.whl"] (fun _ => ⟨0, none, none⟩)
        ⟨some (Exc.otherExc 0), none, none⟩).2 = BootOutcome.raised (Exc.otherExc 0) :=
  (refresh_error_reraised ["pkg-2.0.whl"] (fun _ => ⟨0, none, none⟩)
      ⟨some (Exc.otherExc 0), none, none⟩ (Exc.otherExc 0) (by decide)).2
    "pkg-2.0.whl" (by decide) (fun _ => rfl)

/-- C9: when the working directory listing contains no name ending in `.whl`,
`configure_cluster` (past the dependency gate) hits the uncaught `IndexError`
of `available_wheels[-1]`: it neither exits with a controlled status nor runs
any command, having logged only the two opening debug messages. -/
theorem configure_no_wheels (listing : List String) (runs : List String → ProcResult)
    (w : RefreshWorld)
    (h : listing.filter (fun file => pyEndsWith file ".whl") = []) :
    (configure_cluster listing runs w).2 = BootOutcome.indexError ∧
    (configure_cluster listing runs w).1 =
      [Event.loggedDebug "Dataproc configuration started ...",
       Event.loggedDebugList listing] := by
  have hsel : selectWheel listing = none := by
    unfold selectWheel pySortStrings
    rw [h]
    rfl
  constructor <;> simp [configure_cluster, hsel]

theorem configure_no_wheels_witness :
    (["readme.txt"].filter (fun file => pyEndsWith file ".whl") = []) ∧
    (configure_cluster ["readme.txt"] (fun _ => ⟨0, none, none⟩)
        ⟨none, none, none⟩).2 = BootOutcome.indexError :=
  ⟨by decide,
   (configure_no_wheels ["readme.txt"] (fun _ => ⟨0, none, none⟩)
      ⟨none, none, none⟩ (by decide)).1⟩

/-- C4 counterexample: in a fully successful bootstrap run, there are no
positions `i < j` of the trace with the refresh event at `i` and the success
confirmation at `j` — the refresh does not complete before the confirmation
is logged (the code logs the confirmation at line 141, before the refresh
block of lines 143-156). -/
theorem configure_order_counterexample :
    ¬ ∃ i j : Fin (configure_cluster ["pkg-2.0.whl"] (fun _ => ⟨0, none, none⟩)
        ⟨none, none, none⟩).1.length,
      i < j ∧
      (configure_cluster ["pkg-2.0.whl"] (fun _ => ⟨0, none, none⟩)
          ⟨none, none, none⟩).1.get i = Event.refreshed ∧
      (configure_cluster ["pkg-2.0.whl"] (fun _ => ⟨0, none, none⟩)
          ⟨none, none, none⟩).1.get j =
        Event.loggedInfo "Dataproc initialized successfully !" := by
  decide

/-- C4 (amended): in every fully successful bootstrap run the steps occur in
strict program order — listing, artifact selection, the three diagnostic and
install commands, the wheel install — but the full-success confirmation is
logged before the module-resolution refresh, which is the final step. -/
theorem configure_success_order (listing : List String) (runs : List String → ProcResult)
    (w : RefreshWorld) (wf : String)
    (hsel : selectWheel listing = some wf)
    (h0 : ∀ c, (runs c).returncode = 0)
    (hr : (refreshBlock w).2 = Except.ok ()) :
    configure_cluster listing runs w =
      ([Event.loggedDebug "Dataproc configuration started ...",
        Event.loggedDebugList listing,
        Event.loggedInfo (quoteJoin ["python", "-V"]),
        Event.loggedInfo (quoteJoin ["pip", "-V"]),
        Event.loggedInfo (quoteJoin ["pip", "install", "-r", "requirements/requirements.txt"]),
        Event.loggedDebug ("installing with wheel file : " ++ wf),
        Event.loggedInfo (quoteJoin ["pip", "install", osPathJoin "./" wf, "--upgrade"]),
        Event.loggedInfo "Dataproc initialized successfully !",
        Event.refreshed],
       BootOutcome.ok) := by
  have htr := refreshBlock_ok_trace w hr
  have hrun : ∀ c, _run c {} (runs c) =
      ([Event.loggedInfo (quoteJoin c)], RunOutcome.returned (stdoutText (runs c))) := by
    intro c; simp [_run, h0 c]
  simp [configure_cluster, hsel, hrun, hr, htr]

theorem configure_success_order_witness :
    configure_cluster ["pkg-2.0.whl"] (fun _ => ⟨0, none, none⟩) ⟨none, none, none⟩ =
      ([Event.loggedDebug "Dataproc configuration started ...",
        Event.loggedDebugList ["pkg-2.0.whl"],
        Event.loggedInfo (quoteJoin ["python", "-V"]),
        Event.loggedInfo (quoteJoin ["pip", "-V"]),
        Event.loggedInfo (quoteJoin ["pip", "install", "-r", "requirements/requirements.txt"]),
        Event.loggedDebug ("installing with wheel file : " ++ "pkg-2.0.whl"),
        Event.loggedInfo (quoteJoin ["pip", "install", osPathJoin "./" "pkg-2.0.whl", "--upgrade"]),
        Event.loggedInfo "Dataproc initialized successfully !",
        Event.refreshed],
       BootOutcome.ok) :=
  configure_success_order ["pkg-2.0.whl"] (fun _ => ⟨0, none, none⟩) ⟨none, none, none⟩
    "pkg-2.0.whl" (by decide) (fun _ => rfl) (by decide)

/-- C8: the dispatcher reads `sys.argv[1]`; when it equals `"configure"` the
bootstrap runs, otherwise every invocation argument (`sys.argv[1:]`, first
value included) is forwarded verbatim, in order, as the argument list of the
`ingestor` executable, run with default options (fail-fast, not detached);
no other branch exists. -/
theorem dispatch_spec (argv : List String) (task : String)
    (h : argv.get? 1 = some task) :
    (task = "configure" → (task_dispatch argv).2 = Except.ok DispatchAction.configured) ∧
    (task ≠ "configure" →
      (task_dispatch argv).2 =
        Except.ok (DispatchAction.forwarded ("ingestor" :: argv.drop 1) {})) ∧
    (({} : RunOptions).exit_on_error = true ∧ ({} : RunOptions).detach = false) ∧
    ((task_dispatch argv).2 = Except.ok DispatchAction.configured ∨
      (task_dispatch argv).2 =
        Except.ok (DispatchAction.forwarded ("ingestor" :: argv.drop 1) {})) := by
  rw [List.get?_eq_getElem?] at h
  refine ⟨?_, ?_, ⟨rfl, rfl⟩, ?_⟩
  · intro ht; simp [task_dispatch, h, ht]
  · intro ht; simp [task_dispatch, h, ht]
  · by_cases ht : task = "configure"
    · left; simp [task_dispatch, h, ht]
    · right; simp [task_dispatch, h, ht]

theorem dispatch_spec_witness :
    (task_dispatch ["prog", "load", "x"]).2 =
      Except.ok (DispatchAction.forwarded ["ingestor", "load", "x"] {}) ∧
    (task_dispatch ["prog", "configure"]).2 = Except.ok DispatchAction.configured :=
  ⟨(dispatch_spec ["prog", "load", "x"] "load" (by decide)).2.1 (by decide),
   (dispatch_spec ["prog", "configure"] "configure" (by decide)).1 (by decide)⟩

/-- C10: invoked with no argument beyond the program name, the dispatcher hits
the uncaught `IndexError` of `sys.argv[1]` with an empty trace — before any
routing or command execution. -/
theorem dispatch_no_args (argv : List String) (h : argv.length = 1) :
    task_dispatch argv = ([], Except.error PyErr.indexError) := by
  have hn : argv[1]? = none := by
    rw [List.getElem?_eq_none_iff]
    omega
  simp [task_dispatch, hn]

theorem dispatch_no_args_witness :
    (["prog"].length = 1) ∧
    task_dispatch ["prog"] = ([], Except.error PyErr.indexError) :=
  ⟨rfl, dispatch_no_args ["prog"] rfl⟩
